import Mathlib

/-!
# Verification of `librespot-playback`'s `SymphoniaDecoder` adapter

A shallow embedding of `src/playback/src/decoder/symphonia_decoder.rs`.

The adapter's external collaborators (the Symphonia demultiplexer, codec
decoder, sample buffer and metadata log) are modelled at their interfaces:
the demultiplexer as the list of outcomes its successive `next_packet`
calls produce, the codec decoder as the list of outcomes its successive
`decode` calls produce together with a counter of `reset()` calls, and
`seek` as a function from the request to the demultiplexer's answer.
Machine integers (`u32`, `u64`) are modelled as `Nat`; the `f64`
arithmetic of timestamp conversion is modelled exactly over `ℚ`, with the
Rust saturating float-to-`u32` cast made explicit.
-/

set_option autoImplicit false

namespace Librespot

/-- Modelled from the spec: the playback pipeline's fixed sample rate
(`SAMPLE_RATE` in the playback crate root, which is not under `src/`). -/
def SAMPLE_RATE : Nat := 44100

/-- Modelled from the spec: the playback pipeline's fixed channel count
(`NUM_CHANNELS` in the playback crate root, which is not under `src/`). -/
def NUM_CHANNELS : Nat := 2

/-- Modelled from the spec: the pipeline's container-specific
pages-per-millisecond constant (`PAGES_PER_MS` in the playback crate root,
which is not under `src/`): Ogg pages per millisecond at the fixed rate. -/
def PAGES_PER_MS : ℚ := (SAMPLE_RATE : ℚ) / 1000

/-- `u32::MAX`. -/
def U32_MAX : Nat := 4294967295

/-- The Rust `as u32` cast applied to a finite `f64`, modelled over `ℚ`:
truncation toward zero, saturating at the bounds of `u32`. -/
def f64ToU32 (q : ℚ) : Nat :=
  if q ≤ 0 then 0 else min (q.num.toNat / q.den) U32_MAX

/-- The kind of a `std::io::Error`, as far as the adapter inspects it. -/
inductive IoErrorKind where
  | unexpectedEof
  | otherKind (name : String)
deriving DecidableEq, Repr

/-- `symphonia::core::errors::Error`, the error type of the external
demultiplexer and codec decoder (modelled at its interface). -/
inductive SymphoniaError where
  | ioError (kind : IoErrorKind) (msg : String)
  | decodeError (msg : String)
  | seekError (msg : String)
  | unsupported (msg : String)
  | limitError (msg : String)
  | resetRequired
deriving DecidableEq, Repr

/-- Modelled from the spec: `DecoderError` of `decoder/mod.rs` (not under
`src/`). `symphoniaDecoder` is the variant the adapter builds from an
explicit message; `fromSymphonia` is the `From<symphonia::Error>`
conversion applied by the `?` operator and `err.into()`, kept abstract as
an injection. -/
inductive DecoderError where
  | symphoniaDecoder (msg : String)
  | fromSymphonia (e : SymphoniaError)
deriving DecidableEq, Repr

/-- A channel layout, as far as the adapter inspects it: its channel
count (`channels.count()`) and its display form (`format!` of it). -/
structure Channels where
  count : Nat
  display : String
deriving DecidableEq, Repr

/-- `symphonia::core::audio::SignalSpec`: sample rate and channel layout
of a decoded frame. -/
structure SignalSpec where
  rate : Nat
  channels : Channels
deriving DecidableEq, Repr

/-- `symphonia::core::units::TimeBase`: a rational number of seconds per
timestamp unit. -/
structure TimeBase where
  numer : Nat
  denom : Nat
deriving DecidableEq, Repr

/-- `symphonia::core::units::Time`: whole seconds plus a fractional part.
The `f64` fractional part is modelled exactly over `ℚ`. -/
structure Time where
  seconds : Nat
  frac : ℚ
deriving DecidableEq, Repr

/-- Modelled from the spec: `TimeBase::calc_time` of the external
Symphonia library — `time_base × ts` as a `{seconds, frac}` pair. -/
def TimeBase.calc_time (tb : TimeBase) (ts : Nat) : Time :=
  { seconds := ts * tb.numer / tb.denom
  , frac := ((ts * tb.numer % tb.denom : Nat) : ℚ) / (tb.denom : ℚ) }

/-- The codec parameters the adapter reads back from the instantiated
decoder: `sample_rate`, `channels` and `time_base`, each optional. -/
structure CodecParams where
  sample_rate : Option Nat
  channels : Option Channels
  time_base : Option TimeBase
deriving DecidableEq, Repr

/-- `SymphoniaDecoder::ts_to_ms`, as a function of the codec parameters:
with a time base, `(time.seconds as f64 + time.frac) * 1000.` cast to
`u32`; without one, `ts as f64 * PAGES_PER_MS` cast to `u32`. -/
def tsToMs (params : CodecParams) (ts : Nat) : Nat :=
  match params.time_base with
  | some tb =>
      let time := tb.calc_time ts
      f64ToU32 (((time.seconds : ℚ) + time.frac) * 1000)
  | none => f64ToU32 ((ts : ℚ) * PAGES_PER_MS)

/-- A coded packet pulled from the demultiplexer, as far as the adapter
inspects it: its presentation timestamp `pts()` in time-base units. -/
structure Packet where
  pts : Nat
deriving DecidableEq, Repr

/-- A decoded audio frame (`AudioBufferRef`), as far as the adapter
inspects it: its signal `spec()`, its `capacity()` in frames, the number
of frames it holds, and its interleaved samples. -/
structure DecodedFrame where
  spec : SignalSpec
  capacity : Nat
  frames : Nat
  samples : List ℚ
deriving DecidableEq, Repr

/-- Modelled from the spec: Symphonia's `SampleBuffer<f64>` at its
interface — a scratch buffer with a fixed frame capacity and signal spec,
holding the interleaved samples of the last copied frame. -/
structure SampleBuffer where
  capacity : Nat
  spec : SignalSpec
  samples : List ℚ
deriving DecidableEq, Repr

/-- Modelled from the spec: `SampleBuffer::new(duration, spec)` allocates
an empty buffer of the given frame capacity and spec. -/
def SampleBuffer.new (duration : Nat) (spec : SignalSpec) : SampleBuffer :=
  { capacity := duration, spec := spec, samples := [] }

/-- Modelled from the spec: `SampleBuffer::copy_interleaved_ref`. Copying
a frame into the buffer requires the frame's spec to match the buffer's
spec and the frame to fit the buffer's capacity; violating this is a
fatal (panicking) error, returned here as `none`. -/
def SampleBuffer.copyInterleaved (buf : SampleBuffer) (f : DecodedFrame) :
    Option SampleBuffer :=
  if f.spec = buf.spec ∧ f.frames ≤ buf.capacity then
    some { buf with samples := f.samples }
  else
    none

/-- Modelled from the spec: `AudioPacket` of `decoder/mod.rs` (not under
`src/`) — the pipeline's handoff shape, an owned interleaved `f64` PCM
vector. -/
inductive AudioPacket where
  | samples (data : List ℚ)
deriving DecidableEq, Repr

/-- One outcome of a `FormatReader::next_packet` call. -/
inductive FmtOutcome where
  | ok (p : Packet)
  | err (e : SymphoniaError)
deriving DecidableEq, Repr

/-- One outcome of a `Decoder::decode` call. -/
inductive DecOutcome where
  | ok (f : DecodedFrame)
  | err (e : SymphoniaError)
deriving DecidableEq, Repr

/-- The external codec decoder at its interface: its reported codec
parameters, the outcomes its successive `decode` calls will produce, and
a count of the `reset()` calls made on it. -/
structure Codec where
  params : CodecParams
  decodeScript : List DecOutcome
  resets : Nat
deriving DecidableEq, Repr

/-- `Decoder::reset()`: recorded in the trace; the reported parameters
are unchanged. -/
def Codec.reset (dec : Codec) : Codec :=
  { dec with resets := dec.resets + 1 }

/-- `Decoder::decode(packet)`: produces the next scripted outcome. An
exhausted script stands for a decoder that fails from here on. -/
def Codec.decode (dec : Codec) (_p : Packet) : DecOutcome × Codec :=
  match dec.decodeScript with
  | [] => (.err (.decodeError "decode failed"), dec)
  | r :: rest => (r, { dec with decodeScript := rest })

/-- `SeekMode` of the Symphonia format reader. -/
inductive SeekMode where
  | coarse
  | accurate
deriving DecidableEq, Repr

/-- `SeekTo` of the Symphonia format reader: a target time (with optional
track id) or a target timestamp. -/
inductive SeekTo where
  | time (time : Time) (track_id : Option Nat)
  | timeStamp (ts : Nat) (track_id : Option Nat)
deriving DecidableEq, Repr

/-- `SeekedTo`: the demultiplexer's answer to a successful seek. -/
structure SeekedTo where
  track_id : Nat
  required_ts : Nat
  actual_ts : Nat
deriving DecidableEq, Repr

/-- A tag value, as far as the adapter inspects it: a float or anything
else. -/
inductive Value where
  | float (v : ℚ)
  | nonFloat (repr : String)
deriving DecidableEq, Repr

/-- The standardized tag keys the adapter matches on; every other
standard key is collapsed into `otherKey`. -/
inductive StandardTagKey where
  | replayGainAlbumGain
  | replayGainAlbumPeak
  | replayGainTrackGain
  | replayGainTrackPeak
  | otherKey (name : String)
deriving DecidableEq, Repr

/-- A metadata tag: its optional standardized key and its value. -/
structure Tag where
  std_key : Option StandardTagKey
  value : Value
deriving DecidableEq, Repr

/-- One revision of the metadata log: its list of tags. -/
structure MetadataRevision where
  tags : List Tag
deriving DecidableEq, Repr

/-- The external demultiplexer at its interface: the outcomes its
successive `next_packet` calls will produce, its `seek` behaviour as a
function of the request, and its metadata log, oldest revision first. -/
structure FormatReader where
  packets : List FmtOutcome
  seekFn : SeekMode → SeekTo → Except SymphoniaError SeekedTo
  metadataLog : List MetadataRevision

/-- Modelled from the spec: `player::NormalisationData` (not under
`src/`) — ReplayGain gains and peaks, default-initialized to zero. -/
structure NormalisationData where
  track_gain_db : ℚ
  track_peak : ℚ
  album_gain_db : ℚ
  album_peak : ℚ
deriving DecidableEq, Repr

/-- `NormalisationData::default()`: all zeros. -/
def NormalisationData.default : NormalisationData :=
  { track_gain_db := 0, track_peak := 0, album_gain_db := 0, album_peak := 0 }

/-- The adapter: `SymphoniaDecoder { decoder, format, sample_buffer }`. -/
structure SymphoniaDecoder where
  decoder : Codec
  format : FormatReader
  sample_buffer : Option SampleBuffer

/-- A track exposed by the demultiplexer, as far as construction inspects
it (its codec parameters are handed to the codec registry). -/
structure Track where
  codec_params : CodecParams
deriving DecidableEq, Repr

/-- `SymphoniaDecoder::new`, from the probe outcome onward. The probing
of the hinted byte stream, the default-track lookup and the codec
registry are the external collaborators; they enter as the probe result,
the `default_track()` lookup and the `make` constructor. The `?` on the
probe and on `make` applies the `From<symphonia::Error>` conversion. -/
def SymphoniaDecoder.new (probeResult : Except SymphoniaError FormatReader)
    (default_track : FormatReader → Option Track)
    (make : Track → Except SymphoniaError Codec) :
    Except DecoderError SymphoniaDecoder :=
  match probeResult with
  | .error e => .error (.fromSymphonia e)
  | .ok format =>
    match default_track format with
    | none => .error (.symphoniaDecoder "Could not retrieve default track")
    | some track =>
      match make track with
      | .error e => .error (.fromSymphonia e)
      | .ok decoder =>
        match decoder.params.sample_rate with
        | none => .error (.symphoniaDecoder "Could not retrieve sample rate")
        | some rate =>
          match decoder.params.channels with
          | none =>
              .error (.symphoniaDecoder "Could not retrieve channel configuration")
          | some channels =>
            if rate ≠ SAMPLE_RATE then
              .error (.symphoniaDecoder ("Unsupported sample rate: " ++ toString rate))
            else if channels.count ≠ NUM_CHANNELS then
              .error (.symphoniaDecoder
                ("Unsupported number of channels: " ++ channels.display))
            else
              .ok { decoder := decoder, format := format, sample_buffer := none }

/-- Modelled from the spec: draining the metadata log to its latest
revision with `Metadata::pop`, which discards the front (oldest) revision
while a newer one exists and returns `None` once at most one is left. -/
def drainToLatest : List MetadataRevision → List MetadataRevision
  | [] => []
  | [r] => [r]
  | _ :: r :: rest => drainToLatest (r :: rest)

/-- The tag match inside `normalisation_data`: a float-valued tag with a
recognised ReplayGain standard key overwrites the corresponding field;
every other tag leaves the data unchanged. -/
def applyTag (data : NormalisationData) (tag : Tag) : NormalisationData :=
  match tag.value with
  | .float value =>
    match tag.std_key with
    | some .replayGainAlbumGain => { data with album_gain_db := value }
    | some .replayGainAlbumPeak => { data with album_peak := value }
    | some .replayGainTrackGain => { data with track_gain_db := value }
    | some .replayGainTrackPeak => { data with track_peak := value }
    | _ => data
  | _ => data

/-- The value computed by `SymphoniaDecoder::normalisation_data` from the
metadata log: drain to the latest revision, then read its tags. -/
def normFromLog (log : List MetadataRevision) : Option NormalisationData :=
  match (drainToLatest log).head? with
  | none => none
  | some revision =>
    if revision.tags.isEmpty then none
    else some (revision.tags.foldl applyTag NormalisationData.default)

/-- `SymphoniaDecoder::normalisation_data`: returns the ReplayGain data
of the latest metadata revision; the pops leave the log drained. -/
def SymphoniaDecoder.normalisation_data (s : SymphoniaDecoder) :
    Option NormalisationData × SymphoniaDecoder :=
  (normFromLog s.format.metadataLog,
   { s with format := { s.format with
       metadataLog := drainToLatest s.format.metadataLog } })

/-- `SymphoniaDecoder::ts_to_ms` on the adapter state: reads the
decoder's reported time base. -/
def SymphoniaDecoder.ts_to_ms (s : SymphoniaDecoder) (ts : Nat) : Nat :=
  tsToMs s.decoder.params ts

/-- The `SeekTo` request built by `SymphoniaDecoder::seek` for a position
in milliseconds: whole seconds, fractional part, and no explicit track
id. -/
def seekRequest (position_ms : Nat) : SeekTo :=
  .time { seconds := position_ms / 1000
        , frac := ((position_ms % 1000 : Nat) : ℚ) / 1000 } none

/-- `SymphoniaDecoder::seek`: an accurate-mode seek on the format reader;
on success the codec decoder is reset and the actual timestamp is
converted back to milliseconds, on failure the demultiplexer's error is
propagated by `?`. -/
def SymphoniaDecoder.seek (s : SymphoniaDecoder) (position_ms : Nat) :
    Except DecoderError Nat × SymphoniaDecoder :=
  match s.format.seekFn .accurate (seekRequest position_ms) with
  | .error e => (.error (.fromSymphonia e), s)
  | .ok seeked_to_ts =>
      let s' := { s with decoder := s.decoder.reset }
      (.ok (s'.ts_to_ms seeked_to_ts.actual_ts), s')

/-- The visible outcome of one `next_packet` call: `Ok(None)`,
`Ok(Some(position_ms, samples))`, `Err(e)`, or a fatal panic out of the
sample-buffer copy. -/
inductive NPResult where
  | ret (v : Option (Nat × AudioPacket))
  | err (e : DecoderError)
  | fatal (msg : String)
deriving DecidableEq, Repr

/-- The outcome of `next_packet` together with the state it leaves
behind: the remaining demultiplexer outcomes, the codec decoder and the
sample buffer. -/
structure NPOut where
  result : NPResult
  packets : List FmtOutcome
  decoder : Codec
  sample_buffer : Option SampleBuffer
deriving DecidableEq, Repr

/-- `SymphoniaDecoder::next_packet` over the demultiplexer's outcome
list. An exhausted list stands for a reader at end of stream, whose
`next_packet` fails with an unexpected-EOF I/O error, which the adapter
maps to `Ok(None)`; the `Error::ResetRequired` arm resets the codec
decoder and retries. -/
def nextPacketGo : List FmtOutcome → Codec → Option SampleBuffer → NPOut
  | [], dec, buf => ⟨.ret none, [], dec, buf⟩
  | .err (.ioError kind msg) :: rest, dec, buf =>
    if kind = .unexpectedEof then ⟨.ret none, rest, dec, buf⟩
    else ⟨.err (.symphoniaDecoder msg), rest, dec, buf⟩
  | .err .resetRequired :: rest, dec, buf => nextPacketGo rest dec.reset buf
  | .err e :: rest, dec, buf => ⟨.err (.fromSymphonia e), rest, dec, buf⟩
  | .ok packet :: rest, dec, buf =>
    let position_ms := tsToMs dec.params packet.pts
    match dec.decode packet with
    | (.ok decoded, dec') =>
      let buf0 := match buf with
        | none => SampleBuffer.new decoded.capacity decoded.spec
        | some b => b
      match buf0.copyInterleaved decoded with
      | some buf1 =>
          ⟨.ret (some (position_ms, .samples buf1.samples)), rest, dec', some buf1⟩
      | none => ⟨.fatal "sample buffer copy overflow or spec mismatch", rest, dec',
          some buf0⟩
    | (.err e, dec') => ⟨.err (.fromSymphonia e), rest, dec', buf⟩

/-- `SymphoniaDecoder::next_packet` on the adapter state. -/
def SymphoniaDecoder.next_packet (s : SymphoniaDecoder) :
    NPResult × SymphoniaDecoder :=
  let o := nextPacketGo s.format.packets s.decoder s.sample_buffer
  (o.result,
   { s with format := { s.format with packets := o.packets }
          , decoder := o.decoder
          , sample_buffer := o.sample_buffer })

/-- Whether `pre` is an initial segment of `s`, character for character. -/
def strStarts (pre s : String) : Bool :=
  decide (pre.data = s.data.take pre.data.length)

/-- The spec-side characterization used for the end-of-stream claim: the
first outcome the demultiplexer produces that is not a reset-required
signal (an exhausted outcome list standing for unexpected EOF) is an
unexpected-EOF I/O error. -/
def firstDemuxEof : List FmtOutcome → Bool
  | [] => true
  | .err .resetRequired :: rest => firstDemuxEof rest
  | .err (.ioError .unexpectedEof _) :: _ => true
  | _ => false

/-- Draining the metadata log leaves its newest (last) revision current. -/
theorem drainToLatest_head (log : List MetadataRevision) :
    (drainToLatest log).head? = log.getLast? := by
  induction log using drainToLatest.induct with
  | case1 => rfl
  | case2 r => rfl
  | case3 a r rest ih => rw [drainToLatest, ih, List.getLast?_cons_cons]

/-- Folding `applyTag` over tags none of which match leaves the data
unchanged. -/
theorem foldl_applyTag_id (tags : List Tag) (d : NormalisationData)
    (h : ∀ t ∈ tags, ∀ d', applyTag d' t = d') : tags.foldl applyTag d = d := by
  induction tags generalizing d with
  | nil => rfl
  | cons t ts ih =>
      rw [List.foldl_cons, h t (by simp)]
      exact ih d fun t' ht' => h t' (by simp [ht'])

/-- `next_packet` answers `Ok(None)` exactly when the demultiplexer's
first non-reset-required outcome is an unexpected-EOF I/O error. -/
theorem nextPacketGo_ret_none_iff (pkts : List FmtOutcome) (dec : Codec)
    (buf : Option SampleBuffer) :
    (nextPacketGo pkts dec buf).result = .ret none ↔ firstDemuxEof pkts = true := by
  induction pkts generalizing dec buf with
  | nil => simp [nextPacketGo, firstDemuxEof]
  | cons hd rest ih =>
      match hd with
      | .err (.ioError kind msg) =>
          cases kind with
          | unexpectedEof => simp [nextPacketGo, firstDemuxEof]
          | otherKind name => simp [nextPacketGo, firstDemuxEof]
      | .err .resetRequired => simpa [nextPacketGo, firstDemuxEof] using ih dec.reset buf
      | .err (.decodeError m) => simp [nextPacketGo, firstDemuxEof]
      | .err (.seekError m) => simp [nextPacketGo, firstDemuxEof]
      | .err (.unsupported m) => simp [nextPacketGo, firstDemuxEof]
      | .err (.limitError m) => simp [nextPacketGo, firstDemuxEof]
      | .ok pkt =>
          rcases dec with ⟨params, scr, resets⟩
          cases scr with
          | nil => simp [nextPacketGo, Codec.decode, firstDemuxEof]
          | cons out tail =>
              cases out with
              | ok f =>
                  simp only [nextPacketGo, Codec.decode, firstDemuxEof]
                  cases h : SampleBuffer.copyInterleaved
                      (match buf with
                       | none => SampleBuffer.new f.capacity f.spec
                       | some b => b) f <;> simp [h]
              | err e => simp [nextPacketGo, Codec.decode, firstDemuxEof]

/-- C5: `ts_to_ms` converts via the time base when one is reported —
`(seconds, frac) = time_base × ts`, result `(seconds + frac) × 1000` cast
to `u32` — and falls back to `ts × PAGES_PER_MS` cast to `u32` otherwise;
for `time_base = 1/48000` and `ts = 48000` it yields `1000`, for `ts = 0`
it yields `0`, and near the top of the `u64` range it saturates to
`u32::MAX` instead of panicking. -/
theorem c5_ts_to_ms_conversion :
    (∀ (params : CodecParams) (tb : TimeBase) (ts : Nat),
       params.time_base = some tb →
       tsToMs params ts =
         f64ToU32 ((((tb.calc_time ts).seconds : ℚ) + (tb.calc_time ts).frac) * 1000)) ∧
    (∀ (params : CodecParams) (ts : Nat),
       params.time_base = none →
       tsToMs params ts = f64ToU32 ((ts : ℚ) * PAGES_PER_MS)) ∧
    tsToMs { sample_rate := some 48000, channels := some ⟨2, "FL | FR"⟩,
             time_base := some ⟨1, 48000⟩ } 48000 = 1000 ∧
    (∀ params : CodecParams, tsToMs params 0 = 0) ∧
    tsToMs { sample_rate := some 48000, channels := some ⟨2, "FL | FR"⟩,
             time_base := some ⟨1, 48000⟩ } (2 ^ 64 - 1) = U32_MAX := by
  refine ⟨?_, ?_, ?_, ?_, ?_⟩
  · intro params tb ts h
    simp [tsToMs, h]
  · intro params ts h
    simp [tsToMs, h]
  · norm_num [tsToMs, TimeBase.calc_time, f64ToU32, U32_MAX]
    decide
  · intro params
    rcases params with ⟨r, c, tb⟩
    cases tb with
    | none => norm_num [tsToMs, f64ToU32]
    | some tb => norm_num [tsToMs, TimeBase.calc_time, f64ToU32, Nat.zero_mul]
  · norm_num [tsToMs, TimeBase.calc_time, f64ToU32, U32_MAX]
    decide

/-- Witness for C5: the time-base equation at a concrete input. -/
theorem c5_ts_to_ms_conversion_witness :
    tsToMs { sample_rate := some 48000, channels := some ⟨2, "FL | FR"⟩,
             time_base := some ⟨1, 48000⟩ } 96000 =
      f64ToU32 (((((⟨1, 48000⟩ : TimeBase).calc_time 96000).seconds : ℚ) +
        ((⟨1, 48000⟩ : TimeBase).calc_time 96000).frac) * 1000) :=
  c5_ts_to_ms_conversion.1
    { sample_rate := some 48000, channels := some ⟨2, "FL | FR"⟩,
      time_base := some ⟨1, 48000⟩ } ⟨1, 48000⟩ 96000 rfl

/-- C6: `seek(position_ms)` decomposes the position into whole seconds
and a fractional part, requests an accurate-mode seek at that time with
no explicit track id, and on success resets the codec decoder exactly
once and returns `ts_to_ms` of the actual timestamp; on failure the
demultiplexer's error is propagated and the state (hence the reset count)
is untouched. -/
theorem c6_seek_behaviour (s : SymphoniaDecoder) (position_ms : Nat) :
    seekRequest position_ms =
      SeekTo.time { seconds := position_ms / 1000
                  , frac := ((position_ms % 1000 : Nat) : ℚ) / 1000 } none ∧
    (∀ st, s.format.seekFn .accurate (seekRequest position_ms) = .ok st →
       (s.seek position_ms).1 = .ok (tsToMs s.decoder.params st.actual_ts) ∧
       ((s.seek position_ms).2).decoder.resets = s.decoder.resets + 1) ∧
    (∀ e, s.format.seekFn .accurate (seekRequest position_ms) = .error e →
       s.seek position_ms = (.error (.fromSymphonia e), s)) := by
  refine ⟨rfl, ?_, ?_⟩
  · intro st h
    constructor
    · simp [SymphoniaDecoder.seek, h, SymphoniaDecoder.ts_to_ms, Codec.reset]
    · simp [SymphoniaDecoder.seek, h, Codec.reset]
  · intro e h
    simp [SymphoniaDecoder.seek, h]

/-- Witness for C6 at a concrete adapter and position. -/
theorem c6_seek_behaviour_witness :
    ((SymphoniaDecoder.mk ⟨⟨some 44100, some ⟨2, "FL | FR"⟩, some ⟨1, 44100⟩⟩, [], 0⟩
        ⟨[], fun _ _ => .ok ⟨0, 66150, 66150⟩, []⟩ none).seek 1500).1 =
      .ok (tsToMs ⟨some 44100, some ⟨2, "FL | FR"⟩, some ⟨1, 44100⟩⟩ 66150) ∧
    (((SymphoniaDecoder.mk ⟨⟨some 44100, some ⟨2, "FL | FR"⟩, some ⟨1, 44100⟩⟩, [], 0⟩
        ⟨[], fun _ _ => .ok ⟨0, 66150, 66150⟩, []⟩ none).seek 1500).2).decoder.resets = 0 + 1 :=
  (c6_seek_behaviour
    (SymphoniaDecoder.mk ⟨⟨some 44100, some ⟨2, "FL | FR"⟩, some ⟨1, 44100⟩⟩, [], 0⟩
      ⟨[], fun _ _ => .ok ⟨0, 66150, 66150⟩, []⟩ none) 1500).2.1 ⟨0, 66150, 66150⟩ rfl

/-- C8: `seek` never modifies the sample buffer: whether the seek
succeeds or fails, the `sample_buffer` field (presence, capacity, spec
and contents) is exactly what it was before the call. -/
theorem c8_seek_preserves_sample_buffer (s : SymphoniaDecoder) (position_ms : Nat) :
    ((s.seek position_ms).2).sample_buffer = s.sample_buffer := by
  unfold SymphoniaDecoder.seek
  cases s.format.seekFn .accurate (seekRequest position_ms) <;> rfl

/-- C1: the two reset-required levels are treated differently. A
reset-required signal from the demultiplexer's `next_packet` makes the
adapter reset the codec decoder and retry; a failing `decode` after a
successful demux — whatever the error, reset-required included — is
propagated to the caller with the decoder's reset count and the sample
buffer untouched. -/
theorem c1_reset_required_levels (rest : List FmtOutcome) (dec : Codec)
    (buf : Option SampleBuffer) (pkt : Packet) (e : SymphoniaError)
    (h : dec.decodeScript.head? = some (.err e)) :
    nextPacketGo (.err .resetRequired :: rest) dec buf =
      nextPacketGo rest dec.reset buf ∧
    (nextPacketGo (.ok pkt :: rest) dec buf).result = .err (.fromSymphonia e) ∧
    (nextPacketGo (.ok pkt :: rest) dec buf).decoder.resets = dec.resets ∧
    (nextPacketGo (.ok pkt :: rest) dec buf).sample_buffer = buf := by
  refine ⟨rfl, ?_⟩
  rcases dec with ⟨params, scr, resets⟩
  cases scr with
  | nil => simp at h
  | cons out tail =>
      obtain rfl : out = .err e := by simpa using h
      simp [nextPacketGo, Codec.decode]

/-- Witness for C1: a decoder whose next decode answers reset-required;
the demux-level signal is retried, the decode-level one surfaced. -/
theorem c1_reset_required_levels_witness :
    nextPacketGo [.err .resetRequired] ⟨⟨some 44100, some ⟨2, "FL | FR"⟩, none⟩,
        [.err .resetRequired], 0⟩ none =
      nextPacketGo [] (Codec.reset ⟨⟨some 44100, some ⟨2, "FL | FR"⟩, none⟩,
        [.err .resetRequired], 0⟩) none ∧
    (nextPacketGo [.ok ⟨0⟩] ⟨⟨some 44100, some ⟨2, "FL | FR"⟩, none⟩,
        [.err .resetRequired], 0⟩ none).result =
      .err (.fromSymphonia .resetRequired) ∧
    (nextPacketGo [.ok ⟨0⟩] ⟨⟨some 44100, some ⟨2, "FL | FR"⟩, none⟩,
        [.err .resetRequired], 0⟩ none).decoder.resets = 0 ∧
    (nextPacketGo [.ok ⟨0⟩] ⟨⟨some 44100, some ⟨2, "FL | FR"⟩, none⟩,
        [.err .resetRequired], 0⟩ none).sample_buffer = none := by
  have h := c1_reset_required_levels [] ⟨⟨some 44100, some ⟨2, "FL | FR"⟩, none⟩,
    [.err .resetRequired], 0⟩ none ⟨0⟩ .resetRequired rfl
  exact ⟨h.1, h.2.1, h.2.2.1, h.2.2.2⟩

/-- C2: `next_packet` answers `Ok(None)` exactly when the demultiplexer
fails with an unexpected-EOF I/O error; an I/O error of any other kind is
returned as a decoder error wrapping the I/O error's message. -/
theorem c2_eof_yields_none (s : SymphoniaDecoder) :
    ((s.next_packet).1 = .ret none ↔ firstDemuxEof s.format.packets = true) ∧
    (∀ (kind : IoErrorKind) (msg : String) (rest : List FmtOutcome) (dec : Codec)
       (buf : Option SampleBuffer), kind ≠ .unexpectedEof →
       (nextPacketGo (.err (.ioError kind msg) :: rest) dec buf).result =
         .err (.symphoniaDecoder msg)) := by
  constructor
  · simpa [SymphoniaDecoder.next_packet] using
      nextPacketGo_ret_none_iff s.format.packets s.decoder s.sample_buffer
  · intro kind msg rest dec buf h
    simp [nextPacketGo, h]

/-- Witness for C2: an adapter at unexpected EOF yields `Ok(None)`, and a
non-EOF I/O error is wrapped with its message. -/
theorem c2_eof_yields_none_witness :
    ((SymphoniaDecoder.mk ⟨⟨some 44100, some ⟨2, "FL | FR"⟩, none⟩, [], 0⟩
        ⟨[.err (.ioError .unexpectedEof "eof")], fun _ _ => .error .resetRequired, []⟩
        none).next_packet).1 = .ret none ∧
    (nextPacketGo [.err (.ioError (.otherKind "Interrupted") "read interrupted")]
        ⟨⟨some 44100, some ⟨2, "FL | FR"⟩, none⟩, [], 0⟩ none).result =
      .err (.symphoniaDecoder "read interrupted") := by
  have h := c2_eof_yields_none
    (SymphoniaDecoder.mk ⟨⟨some 44100, some ⟨2, "FL | FR"⟩, none⟩, [], 0⟩
      ⟨[.err (.ioError .unexpectedEof "eof")], fun _ _ => .error .resetRequired, []⟩ none)
  exact ⟨h.1.mpr rfl, h.2 (.otherKind "Interrupted") "read interrupted" [] _ none
    (by simp)⟩

/-- C3: the sample buffer is write-once. It is `none` on construction;
the first successful decode allocates it with the first decoded frame's
capacity and spec; and every later successful `next_packet` keeps the
existing allocation — same presence, capacity and spec. -/
theorem c3_sample_buffer_write_once :
    (∀ (pr : Except SymphoniaError FormatReader) (dt : FormatReader → Option Track)
       (mk : Track → Except SymphoniaError Codec) (s : SymphoniaDecoder),
       SymphoniaDecoder.new pr dt mk = .ok s → s.sample_buffer = none) ∧
    (∀ (pkts : List FmtOutcome) (dec : Codec) (f : DecodedFrame),
       dec.decodeScript.head? = some (.ok f) →
       ∀ (p : Nat) (a : AudioPacket),
         (nextPacketGo pkts dec none).result = .ret (some (p, a)) →
         (nextPacketGo pkts dec none).sample_buffer =
           some { capacity := f.capacity, spec := f.spec, samples := f.samples }) ∧
    (∀ (pkts : List FmtOutcome) (dec : Codec) (b : SampleBuffer) (p : Nat)
       (a : AudioPacket),
       (nextPacketGo pkts dec (some b)).result = .ret (some (p, a)) →
       ∃ b', (nextPacketGo pkts dec (some b)).sample_buffer = some b' ∧
         b'.capacity = b.capacity ∧ b'.spec = b.spec) := by
  refine ⟨?_, ?_, ?_⟩
  · intro pr dt mk s h
    unfold SymphoniaDecoder.new at h
    repeat' split at h
    all_goals try simp at h
    subst h
    rfl
  · intro pkts dec f hf p a
    induction pkts generalizing dec with
    | nil => intro h; simp [nextPacketGo] at h
    | cons hd rest ih =>
        match hd with
        | .err (.ioError kind msg) =>
            intro h
            by_cases hk : kind = .unexpectedEof <;> simp [nextPacketGo, hk] at h
        | .err .resetRequired =>
            intro h
            rw [nextPacketGo] at h ⊢
            exact ih dec.reset hf h
        | .err (.decodeError m) => intro h; simp [nextPacketGo] at h
        | .err (.seekError m) => intro h; simp [nextPacketGo] at h
        | .err (.unsupported m) => intro h; simp [nextPacketGo] at h
        | .err (.limitError m) => intro h; simp [nextPacketGo] at h
        | .ok pkt =>
            rcases dec with ⟨params, scr, resets⟩
            cases scr with
            | nil => simp at hf
            | cons out tail =>
                obtain rfl : out = .ok f := by simpa using hf
                intro h
                by_cases hle : f.frames ≤ f.capacity
                · simp [nextPacketGo, Codec.decode, SampleBuffer.copyInterleaved,
                    SampleBuffer.new, hle]
                · simp [nextPacketGo, Codec.decode, SampleBuffer.copyInterleaved,
                    SampleBuffer.new, hle] at h
  · intro pkts dec b p a
    induction pkts generalizing dec with
    | nil => intro h; simp [nextPacketGo] at h
    | cons hd rest ih =>
        match hd with
        | .err (.ioError kind msg) =>
            intro h
            by_cases hk : kind = .unexpectedEof <;> simp [nextPacketGo, hk] at h
        | .err .resetRequired =>
            intro h
            rw [nextPacketGo] at h ⊢
            exact ih dec.reset h
        | .err (.decodeError m) => intro h; simp [nextPacketGo] at h
        | .err (.seekError m) => intro h; simp [nextPacketGo] at h
        | .err (.unsupported m) => intro h; simp [nextPacketGo] at h
        | .err (.limitError m) => intro h; simp [nextPacketGo] at h
        | .ok pkt =>
            rcases dec with ⟨params, scr, resets⟩
            cases scr with
            | nil => intro h; simp [nextPacketGo, Codec.decode] at h
            | cons out tail =>
                cases out with
                | err e => intro h; simp [nextPacketGo, Codec.decode] at h
                | ok f =>
                    intro h
                    by_cases hc : f.spec = b.spec ∧ f.frames ≤ b.capacity
                    · refine ⟨{ b with samples := f.samples }, ?_, rfl, rfl⟩
                      simp [nextPacketGo, Codec.decode,
                        SampleBuffer.copyInterleaved, hc]
                    · simp [nextPacketGo, Codec.decode,
                        SampleBuffer.copyInterleaved, hc] at h

/-- Witness for C3: construction leaves the buffer unset, and the first
successful decode allocates it from the first frame. -/
theorem c3_sample_buffer_write_once_witness :
    (SymphoniaDecoder.mk ⟨⟨some 44100, some ⟨2, "FL | FR"⟩, none⟩, [], 0⟩
        ⟨[], fun _ _ => .error .resetRequired, []⟩ none).sample_buffer = none ∧
    (nextPacketGo [.ok ⟨0⟩]
        ⟨⟨some 44100, some ⟨2, "FL | FR"⟩, none⟩,
          [.ok ⟨⟨44100, ⟨2, "FL | FR"⟩⟩, 4, 2, [1, 0, 1/2, 0]⟩], 0⟩
        none).sample_buffer =
      some { capacity := 4, spec := ⟨44100, ⟨2, "FL | FR"⟩⟩,
             samples := [1, 0, 1/2, 0] } := by
  constructor
  · exact c3_sample_buffer_write_once.1
      (.ok ⟨[], fun _ _ => .error .resetRequired, []⟩)
      (fun _ => some ⟨⟨some 44100, some ⟨2, "FL | FR"⟩, none⟩⟩)
      (fun t => .ok ⟨t.codec_params, [], 0⟩)
      (SymphoniaDecoder.mk ⟨⟨some 44100, some ⟨2, "FL | FR"⟩, none⟩, [], 0⟩
        ⟨[], fun _ _ => .error .resetRequired, []⟩ none) rfl
  · exact c3_sample_buffer_write_once.2.1 [.ok ⟨0⟩]
      ⟨⟨some 44100, some ⟨2, "FL | FR"⟩, none⟩,
        [.ok ⟨⟨44100, ⟨2, "FL | FR"⟩⟩, 4, 2, [1, 0, 1/2, 0]⟩], 0⟩
      ⟨⟨44100, ⟨2, "FL | FR"⟩⟩, 4, 2, [1, 0, 1/2, 0]⟩ rfl
      (tsToMs ⟨some 44100, some ⟨2, "FL | FR"⟩, none⟩ 0)
      (.samples [1, 0, 1/2, 0])
      (by simp [nextPacketGo, Codec.decode, SampleBuffer.copyInterleaved,
            SampleBuffer.new])

/-- C7: once the sample buffer's spec is fixed, decoding a frame whose
spec does not match it is a fatal error out of `next_packet`, not a
silently accepted packet. -/
theorem c7_spec_mismatch_fatal (pkt : Packet) (rest : List FmtOutcome) (dec : Codec)
    (b : SampleBuffer) (f : DecodedFrame)
    (hf : dec.decodeScript.head? = some (.ok f)) (hspec : f.spec ≠ b.spec) :
    (nextPacketGo (.ok pkt :: rest) dec (some b)).result =
      .fatal "sample buffer copy overflow or spec mismatch" := by
  rcases dec with ⟨params, scr, resets⟩
  cases scr with
  | nil => simp at hf
  | cons out tail =>
      obtain rfl : out = .ok f := by simpa using hf
      simp [nextPacketGo, Codec.decode, SampleBuffer.copyInterleaved, hspec]

/-- Witness for C7: a second frame with a different sample rate is fatal. -/
theorem c7_spec_mismatch_fatal_witness :
    (nextPacketGo [.ok ⟨4⟩]
        ⟨⟨some 44100, some ⟨2, "FL | FR"⟩, none⟩,
          [.ok ⟨⟨48000, ⟨2, "FL | FR"⟩⟩, 4, 2, [0, 0, 0, 0]⟩], 0⟩
        (some ⟨4, ⟨44100, ⟨2, "FL | FR"⟩⟩, [1, 0, 1/2, 0]⟩)).result =
      .fatal "sample buffer copy overflow or spec mismatch" :=
  c7_spec_mismatch_fatal ⟨4⟩ []
    ⟨⟨some 44100, some ⟨2, "FL | FR"⟩, none⟩,
      [.ok ⟨⟨48000, ⟨2, "FL | FR"⟩⟩, 4, 2, [0, 0, 0, 0]⟩], 0⟩
    ⟨4, ⟨44100, ⟨2, "FL | FR"⟩⟩, [1, 0, 1/2, 0]⟩
    ⟨⟨48000, ⟨2, "FL | FR"⟩⟩, 4, 2, [0, 0, 0, 0]⟩ rfl (by decide)

/-- `normFromLog` is `none` exactly on an empty log or an empty latest
revision. -/
theorem normFromLog_none_iff (log : List MetadataRevision) :
    normFromLog log = none ↔
      (log.getLast? = none ∨ ∃ rev, log.getLast? = some rev ∧ rev.tags = []) := by
  unfold normFromLog
  rw [drainToLatest_head]
  rcases hl : log.getLast? with _ | rev
  · simp
  · by_cases ht : rev.tags.isEmpty
    · simp [ht, List.isEmpty_iff.mp ht]
    · have ht' : rev.tags ≠ [] := by simpa [List.isEmpty_iff] using ht
      simp [ht, ht']

/-- On a non-empty latest revision, `normFromLog` folds the tags over the
default data. -/
theorem normFromLog_some (log : List MetadataRevision) (rev : MetadataRevision)
    (h : log.getLast? = some rev) (ht : rev.tags ≠ []) :
    normFromLog log = some (rev.tags.foldl applyTag NormalisationData.default) := by
  unfold normFromLog
  rw [drainToLatest_head, h]
  simp [List.isEmpty_iff, ht]

/-- C4 counterexample: with reported sample rate 48000 and a mono channel
layout (both invalid), `new` returns the sample-rate error, whose message
does not start with "Unsupported number of channels:" — so the claim's
unconditional channel-count clause fails as stated. -/
theorem c4_format_validation_counterexample :
    SymphoniaDecoder.new (.ok ⟨[], fun _ _ => .error .resetRequired, []⟩)
        (fun _ => some ⟨⟨some 48000, some ⟨1, "FL"⟩, none⟩⟩)
        (fun t => .ok ⟨t.codec_params, [], 0⟩) =
      .error (.symphoniaDecoder "Unsupported sample rate: 48000") ∧
    strStarts "Unsupported number of channels:" "Unsupported sample rate: 48000"
      = false :=
  ⟨rfl, by decide⟩

/-- C4 (amended): accepted inputs report exactly `SAMPLE_RATE` and
`NUM_CHANNELS`; when both parameters are reported, a sample rate other
than `SAMPLE_RATE` yields "Unsupported sample rate: N", and — the rate
check coming first — a channel count other than `NUM_CHANNELS` with a
matching sample rate yields a message starting with "Unsupported number
of channels:" and containing the channel layout. -/
theorem c4_format_validation_amended :
    (∀ (pr : Except SymphoniaError FormatReader) (dt : FormatReader → Option Track)
       (mk : Track → Except SymphoniaError Codec) (s : SymphoniaDecoder),
       SymphoniaDecoder.new pr dt mk = .ok s →
       s.decoder.params.sample_rate = some SAMPLE_RATE ∧
       ∃ ch, s.decoder.params.channels = some ch ∧ ch.count = NUM_CHANNELS) ∧
    (∀ (fr : FormatReader) (dt : FormatReader → Option Track)
       (mk : Track → Except SymphoniaError Codec) (tr : Track) (dec : Codec)
       (r : Nat) (ch : Channels), dt fr = some tr → mk tr = .ok dec →
       dec.params.sample_rate = some r → dec.params.channels = some ch →
       r ≠ SAMPLE_RATE →
       SymphoniaDecoder.new (.ok fr) dt mk =
         .error (.symphoniaDecoder ("Unsupported sample rate: " ++ toString r))) ∧
    (∀ (fr : FormatReader) (dt : FormatReader → Option Track)
       (mk : Track → Except SymphoniaError Codec) (tr : Track) (dec : Codec)
       (ch : Channels), dt fr = some tr → mk tr = .ok dec →
       dec.params.sample_rate = some SAMPLE_RATE → dec.params.channels = some ch →
       ch.count ≠ NUM_CHANNELS →
       SymphoniaDecoder.new (.ok fr) dt mk =
         .error (.symphoniaDecoder ("Unsupported number of channels: " ++ ch.display)) ∧
       strStarts "Unsupported number of channels:"
         ("Unsupported number of channels: " ++ ch.display) = true) := by
  refine ⟨?_, ?_, ?_⟩
  · intro pr dt mk s h
    rcases pr with e | fr
    · simp [SymphoniaDecoder.new] at h
    simp only [SymphoniaDecoder.new] at h
    rcases hdt : dt fr with _ | tr
    · simp [hdt] at h
    simp only [hdt] at h
    rcases hmk : mk tr with e | dec
    · simp [hmk] at h
    simp only [hmk] at h
    rcases hr : dec.params.sample_rate with _ | r
    · simp [hr] at h
    simp only [hr] at h
    rcases hc : dec.params.channels with _ | ch
    · simp [hc] at h
    simp only [hc] at h
    by_cases h1 : r = SAMPLE_RATE
    case neg => simp [h1] at h
    by_cases h2 : ch.count = NUM_CHANNELS
    case neg => simp [h1, h2] at h
    simp only [h1, h2, ne_eq, not_true_eq_false, if_false, ite_false,
      Except.ok.injEq] at h
    subst h
    exact ⟨by simp [hr, h1], ch, by simp [hc], h2⟩
  · intro fr dt mk tr dec r ch hdt hmk hr hc hne
    simp [SymphoniaDecoder.new, hdt, hmk, hr, hc, hne]
  · intro fr dt mk tr dec ch hdt hmk hr hc hne
    refine ⟨by simp [SymphoniaDecoder.new, hdt, hmk, hr, hc, hne], ?_⟩
    simp only [strStarts, decide_eq_true_eq]
    have hlen : ("Unsupported number of channels:".data).length ≤
        ("Unsupported number of channels: ".data).length := by decide
    rw [String.data_append, List.take_append_of_le_length hlen]
    decide

/-- Witness for C4 (amended): a stereo layout with three channels at the
pipeline's rate is rejected with the channel-count message. -/
theorem c4_format_validation_witness :
    SymphoniaDecoder.new
        (.ok ⟨[], fun _ _ => .error .resetRequired, []⟩)
        (fun _ => some ⟨⟨some 44100, some ⟨3, "FL | FR | LFE"⟩, none⟩⟩)
        (fun t => .ok ⟨t.codec_params, [], 0⟩) =
      .error (.symphoniaDecoder
        ("Unsupported number of channels: " ++ "FL | FR | LFE")) ∧
    strStarts "Unsupported number of channels:"
      ("Unsupported number of channels: " ++ "FL | FR | LFE") = true :=
  c4_format_validation_amended.2.2
    ⟨[], fun _ _ => .error .resetRequired, []⟩
    (fun _ => some ⟨⟨some 44100, some ⟨3, "FL | FR | LFE"⟩, none⟩⟩)
    (fun t => .ok ⟨t.codec_params, [], 0⟩)
    ⟨⟨some 44100, some ⟨3, "FL | FR | LFE"⟩, none⟩⟩
    ⟨⟨some 44100, some ⟨3, "FL | FR | LFE"⟩, none⟩, [], 0⟩
    ⟨3, "FL | FR | LFE"⟩ rfl rfl rfl rfl (by decide)

/-- C10: construction has two presence checks ahead of the validation —
a missing sample rate fails with "Could not retrieve sample rate", and a
missing channel configuration fails with "Could not retrieve channel
configuration" even when the reported rate is arbitrary (so validation is
only reached with both parameters present). -/
theorem c10_construction_missing_params :
    (∀ (fr : FormatReader) (dt : FormatReader → Option Track)
       (mk : Track → Except SymphoniaError Codec) (tr : Track) (dec : Codec),
       dt fr = some tr → mk tr = .ok dec → dec.params.sample_rate = none →
       SymphoniaDecoder.new (.ok fr) dt mk =
         .error (.symphoniaDecoder "Could not retrieve sample rate")) ∧
    (∀ (fr : FormatReader) (dt : FormatReader → Option Track)
       (mk : Track → Except SymphoniaError Codec) (tr : Track) (dec : Codec)
       (r : Nat), dt fr = some tr → mk tr = .ok dec →
       dec.params.sample_rate = some r → dec.params.channels = none →
       SymphoniaDecoder.new (.ok fr) dt mk =
         .error (.symphoniaDecoder "Could not retrieve channel configuration")) := by
  constructor
  · intro fr dt mk tr dec hdt hmk hr
    simp [SymphoniaDecoder.new, hdt, hmk, hr]
  · intro fr dt mk tr dec r hdt hmk hr hc
    simp [SymphoniaDecoder.new, hdt, hmk, hr, hc]

/-- Witness for C10: the channel-configuration presence check fires even
though the reported rate 48000 also fails validation. -/
theorem c10_construction_missing_params_witness :
    SymphoniaDecoder.new
        (.ok ⟨[], fun _ _ => .error .resetRequired, []⟩)
        (fun _ => some ⟨⟨some 48000, none, none⟩⟩)
        (fun t => .ok ⟨t.codec_params, [], 0⟩) =
      .error (.symphoniaDecoder "Could not retrieve channel configuration") :=
  c10_construction_missing_params.2
    ⟨[], fun _ _ => .error .resetRequired, []⟩
    (fun _ => some ⟨⟨some 48000, none, none⟩⟩)
    (fun t => .ok ⟨t.codec_params, [], 0⟩)
    ⟨⟨some 48000, none, none⟩⟩ ⟨⟨some 48000, none, none⟩, [], 0⟩
    48000 rfl rfl rfl rfl

/-- C9: `normalisation_data` drains the metadata log to its latest
revision, returns `none` exactly on a missing or tag-empty latest
revision, and otherwise folds the default (all-zero) data through the
tags, where only float-valued tags with a ReplayGain standard key set
their field and everything else is ignored — so a non-empty revision with
no matching tags yields the all-zero data. -/
theorem c9_normalisation_data (s : SymphoniaDecoder) :
    (drainToLatest s.format.metadataLog).head? = s.format.metadataLog.getLast? ∧
    ((s.normalisation_data).1 = none ↔
      (s.format.metadataLog.getLast? = none ∨
       ∃ rev, s.format.metadataLog.getLast? = some rev ∧ rev.tags = [])) ∧
    (∀ rev, s.format.metadataLog.getLast? = some rev → rev.tags ≠ [] →
       (s.normalisation_data).1 =
         some (rev.tags.foldl applyTag NormalisationData.default)) ∧
    (∀ (d : NormalisationData) (v : ℚ),
       applyTag d ⟨some .replayGainAlbumGain, .float v⟩ = { d with album_gain_db := v } ∧
       applyTag d ⟨some .replayGainAlbumPeak, .float v⟩ = { d with album_peak := v } ∧
       applyTag d ⟨some .replayGainTrackGain, .float v⟩ = { d with track_gain_db := v } ∧
       applyTag d ⟨some .replayGainTrackPeak, .float v⟩ = { d with track_peak := v }) ∧
    (∀ (d : NormalisationData) (k : Option StandardTagKey) (r : String),
       applyTag d ⟨k, .nonFloat r⟩ = d) ∧
    (∀ (d : NormalisationData) (nm : String) (v : ℚ),
       applyTag d ⟨some (.otherKey nm), .float v⟩ = d ∧
       applyTag d ⟨none, .float v⟩ = d) ∧
    (∀ rev, s.format.metadataLog.getLast? = some rev → rev.tags ≠ [] →
       (∀ t ∈ rev.tags, ∀ d, applyTag d t = d) →
       (s.normalisation_data).1 = some NormalisationData.default) := by
  refine ⟨drainToLatest_head s.format.metadataLog, ?_, ?_, ?_, ?_, ?_, ?_⟩
  · exact normFromLog_none_iff s.format.metadataLog
  · intro rev h ht
    exact normFromLog_some s.format.metadataLog rev h ht
  · intro d v
    exact ⟨rfl, rfl, rfl, rfl⟩
  · intro d k r
    rfl
  · intro d nm v
    exact ⟨rfl, rfl⟩
  · intro rev h ht hid
    rw [show (s.normalisation_data).1 = normFromLog s.format.metadataLog from rfl,
      normFromLog_some s.format.metadataLog rev h ht,
      foldl_applyTag_id rev.tags NormalisationData.default hid]

/-- Witness for C9: a two-revision log is drained to its second revision,
whose ReplayGain tags populate the returned data. -/
theorem c9_normalisation_data_witness :
    ((SymphoniaDecoder.mk ⟨⟨some 44100, some ⟨2, "FL | FR"⟩, none⟩, [], 0⟩
        ⟨[], fun _ _ => .error .resetRequired,
          [⟨[⟨none, .nonFloat "old"⟩]⟩,
           ⟨[⟨some .replayGainTrackGain, .float (-13/2)⟩,
             ⟨some .replayGainTrackPeak, .float (19/20)⟩]⟩]⟩
        none).normalisation_data).1 =
      some (List.foldl applyTag NormalisationData.default
        [⟨some .replayGainTrackGain, .float (-13/2)⟩,
         ⟨some .replayGainTrackPeak, .float (19/20)⟩]) :=
  (c9_normalisation_data
    (SymphoniaDecoder.mk ⟨⟨some 44100, some ⟨2, "FL | FR"⟩, none⟩, [], 0⟩
      ⟨[], fun _ _ => .error .resetRequired,
        [⟨[⟨none, .nonFloat "old"⟩]⟩,
         ⟨[⟨some .replayGainTrackGain, .float (-13/2)⟩,
           ⟨some .replayGainTrackPeak, .float (19/20)⟩]⟩]⟩
      none)).2.2.1
    ⟨[⟨some .replayGainTrackGain, .float (-13/2)⟩,
      ⟨some .replayGainTrackPeak, .float (19/20)⟩]⟩ rfl (by simp)

end Librespot
